import Mathlib

/-!
Shallow embedding of `src/ConfigManager.py` (a JSON configuration loader
with schema validation and an LRU cache) and proofs about it.

Source structure being modelled:

* `ConfigError(Exception)` — the single custom exception class; every
  `raise ConfigError(...)` site produces a distinct message format, so the
  three raise sites are modelled as three constructors of `PyErr`, each
  rendering its exact message via `PyErr.message`.  Errors raised by the
  Python runtime or the `json` library (`TypeError`, `json.JSONDecodeError`)
  are *not* instances of `ConfigError`; `PyErr.isConfigError` records class
  membership.
* `validate_config(schema)` — a decorator whose wrapper iterates
  `schema.items()` in insertion order, checking `key not in config` and then
  `isinstance(config[key], expected_type)`.  Python's `isinstance` treats
  `bool` as a subclass of `int`; `key in config` on a non-container raises
  `TypeError`; on a string it is a substring test; on a list it is element
  membership.
* `ConfigLoader` — holds `config_dir`; its `load` is wrapped first by
  `validate_config({"host": str, "port": int, "debug": bool})` and then by
  `functools.lru_cache(maxsize=5)`.  `lru_cache` applied to a method
  creates ONE cache at class-definition time, shared by every instance,
  keyed by the call arguments `(self, config_name)`; instance identity is
  modelled by an `id : Nat` field.  `lru_cache` does not cache raised
  exceptions; on a hit the entry becomes most-recently used; on a miss the
  computed value is inserted and, past `maxsize`, the least-recently-used
  entry is evicted.

The behaviour of `json.load` (an external library) is modelled by storing,
for each file in the file system, the outcome of parsing its text: either
the parsed Python value or the `JSONDecodeError` message it would raise.
-/

set_option autoImplicit false

namespace ConfigManager

/-- Python values that can result from `json.load`, plus booleans/None.
Non-integral JSON numbers (Python floats) are modelled as rationals. -/
inductive PyVal where
  | str (s : String)
  | int (n : Int)
  | bool (b : Bool)
  | float (q : Rat)
  | list (xs : List PyVal)
  | dict (kvs : List (String × PyVal))
  | none

/-- The type tags used as schema values in the source:
`str`, `int`, `bool` (the fixed schema on `ConfigLoader.load` uses exactly
these three Python classes). -/
inductive PyType where
  | str
  | int
  | bool
  deriving DecidableEq

/-- How Python renders a type object in an f-string: `f"{int}"` is
`"<class 'int'>"`. -/
def PyType.reprStr : PyType → String
  | .str => "<class 'str'>"
  | .int => "<class 'int'>"
  | .bool => "<class 'bool'>"

/-- How Python renders `type(v)` for each modelled value. -/
def PyVal.typeRepr : PyVal → String
  | .str _ => "<class 'str'>"
  | .int _ => "<class 'int'>"
  | .bool _ => "<class 'bool'>"
  | .float _ => "<class 'float'>"
  | .list _ => "<class 'list'>"
  | .dict _ => "<class 'dict'>"
  | .none => "<class 'NoneType'>"

/-- Errors the `load` pipeline can raise.  The first three constructors are
the three `raise ConfigError(...)` sites of the source; `jsonDecode` is the
`json.JSONDecodeError` (a `ValueError`) that `json.load` raises on malformed
input, and `typeError` is a Python `TypeError` raised by the runtime. -/
inductive PyErr where
  | missingKey (key : String)
  | typeMismatch (key : String) (expected : PyType) (actual : String)
  | fileNotFound (path : String)
  | jsonDecode (msg : String)
  | typeError (msg : String)
  deriving DecidableEq

/-- Whether the raised exception is an instance of the `ConfigError` class
(the code's single custom exception class).  `json.JSONDecodeError` and
`TypeError` are unrelated classes, so an `except ConfigError` does not
catch them. -/
def PyErr.isConfigError : PyErr → Bool
  | .missingKey _ => true
  | .typeMismatch _ _ _ => true
  | .fileNotFound _ => true
  | .jsonDecode _ => false
  | .typeError _ => false

/-- The exact exception message each raise site produces (the f-strings at
lines 21, 23 and 42 of the source; for the external errors, the message the
Python runtime supplies). -/
def PyErr.message : PyErr → String
  | .missingKey key => "Missing key in configuration: " ++ key
  | .typeMismatch key expected actual =>
      "Incorrect type for " ++ key ++ ": expected " ++ expected.reprStr
        ++ ", got " ++ actual
  | .fileNotFound path => "Configuration file not found: " ++ path
  | .jsonDecode msg => msg
  | .typeError msg => msg

/-- First-match lookup in a Python dict modelled as an association list
(Python dicts have unique keys; parsing keeps the last duplicate, so the
lists we build have unique keys and first-match lookup is dict lookup). -/
def dictFind : List (String × PyVal) → String → Option PyVal
  | [], _ => Option.none
  | (k, v) :: rest, key => if key = k then some v else dictFind rest key

/-- Python's `isinstance(v, t)` for the modelled values and type tags.
`bool` is a subclass of `int` in Python, so `isinstance(True, int)` is
`True`; no other cross-type relation holds among `str`, `int`, `bool`. -/
def pyIsinstance : PyVal → PyType → Bool
  | .str _, .str => true
  | .int _, .int => true
  | .bool _, .int => true
  | .bool _, .bool => true
  | _, _ => false

/-- Python's `key in config` for a string `key` (the test at line 20).
On a dict it is key membership; on a string it is a substring test; on a
list it is element equality (a string equals only an equal string); on any
non-container it raises `TypeError("argument of type '...' is not
iterable")`. -/
def pyContains : PyVal → String → Except PyErr Bool
  | .dict kvs, key => .ok (dictFind kvs key).isSome
  | .str s, key => .ok ((s.splitOn key).length > 1 || key = "")
  | .list xs, key =>
      .ok (xs.any fun v => match v with | .str s => s = key | _ => false)
  | .int _, _ => .error (.typeError "argument of type 'int' is not iterable")
  | .bool _, _ => .error (.typeError "argument of type 'bool' is not iterable")
  | .float _, _ => .error (.typeError "argument of type 'float' is not iterable")
  | .none, _ => .error (.typeError "argument of type 'NoneType' is not iterable")

/-- Python's `config[key]` for a string `key` (the subscript at lines
22–23), reached only after `key in config` succeeded. -/
def pyGetItem : PyVal → String → Except PyErr PyVal
  | .dict kvs, key =>
      match dictFind kvs key with
      | some v => .ok v
      | Option.none => .error (.typeError "KeyError")
  | .str _, _ => .error (.typeError "string indices must be integers")
  | .list _, _ =>
      .error (.typeError "list indices must be integers or slices, not str")
  | .int _, _ => .error (.typeError "'int' object is not subscriptable")
  | .bool _, _ => .error (.typeError "'bool' object is not subscriptable")
  | .float _, _ => .error (.typeError "'float' object is not subscriptable")
  | .none, _ => .error (.typeError "'NoneType' object is not subscriptable")

/-- The loop body of the `validate_config` wrapper (lines 19–25): iterate
the schema entries in order; raise on the first key that is absent or whose
value fails `isinstance`; on success fall through and return `config`
unchanged. -/
def validateLoop (config : PyVal) : List (String × PyType) → Except PyErr PyVal
  | [] => .ok config
  | (key, expected) :: rest =>
      match pyContains config key with
      | .error e => .error e
      | .ok false => .error (.missingKey key)
      | .ok true =>
          match pyGetItem config key with
          | .error e => .error e
          | .ok v =>
              if pyIsinstance v expected then validateLoop config rest
              else .error (.typeMismatch key expected v.typeRepr)

/-- The validation a `validate_config(schema)`-wrapped function applies to
the value its wrapped function returned.  A schema is `schema.items()` in
insertion order. -/
def validate_config (schema : List (String × PyType)) (config : PyVal) :
    Except PyErr PyVal :=
  validateLoop config schema

/-- Whether a string starts with the separator `'/'`. -/
def strHeadIsSlash (s : String) : Bool :=
  match s.data with
  | [] => false
  | c :: _ => c = '/'

/-- Whether a string ends with the separator `'/'`. -/
def strLastIsSlash (s : String) : Bool :=
  match s.data.getLast? with
  | some c => c = '/'
  | Option.none => false

/-- `os.path.join(a, b)`: an absolute second component replaces the first;
otherwise a single separator is inserted unless `a` is empty or already
ends with one. -/
def os_path_join (a b : String) : String :=
  if strHeadIsSlash b then b
  else if a = "" || strLastIsSlash a then a ++ b
  else a ++ "/" ++ b

/-- A file system: each existing file's path paired with the outcome of
`json.load` on its contents — `.ok v` when the text parses to the value
`v`, `.error msg` when `json.load` would raise `JSONDecodeError(msg)`.
A path absent from the list does not exist (`os.path.exists` is false). -/
abbrev FS := List (String × Except String PyVal)

def fsFind : FS → String → Option (Except String PyVal)
  | [], _ => Option.none
  | (p, c) :: rest, path => if path = p then some c else fsFind rest path

/-- A `ConfigLoader` instance: `config_dir` from the constructor, plus an
`id` modelling Python object identity (the instance is part of the
`lru_cache` key). -/
structure ConfigLoader where
  id : Nat
  config_dir : String

/-- The `lru_cache` key for a call `self.load(config_name)`. -/
abbrev CacheKey := Nat × String

/-- The shared class-level `lru_cache` storage, most-recently-used first. -/
abbrev Cache := List (CacheKey × PyVal)

def cacheFind : Cache → CacheKey → Option PyVal
  | [], _ => Option.none
  | (k, v) :: rest, key => if key = k then some v else cacheFind rest key

def cacheRemove : Cache → CacheKey → Cache
  | [], _ => []
  | (k, v) :: rest, key =>
      if key = k then cacheRemove rest key else (k, v) :: cacheRemove rest key

/-- `maxsize=5` on the `lru_cache` decorator (line 35). -/
def LOAD_MAXSIZE : Nat := 5

/-- The undecorated body of `ConfigLoader.load` (lines 37–48): build the
path, fail with `ConfigError` if the file does not exist, otherwise read
and `json.load` it (propagating `JSONDecodeError` on malformed input). -/
def ConfigLoader.load_raw (fs : FS) (self : ConfigLoader) (config_name : String) :
    Except PyErr PyVal :=
  let file_path := os_path_join self.config_dir (config_name ++ ".json")
  match fsFind fs file_path with
  | Option.none => .error (.fileNotFound file_path)
  | some (.error msg) => .error (.jsonDecode msg)
  | some (.ok config) => .ok config

/-- The `validate_config`-wrapped load: run the body, then validate the
result against the fixed schema `{"host": str, "port": int, "debug": bool}`
(line 36); any error propagates. -/
def APP_SCHEMA : List (String × PyType) :=
  [("host", .str), ("port", .int), ("debug", .bool)]

def ConfigLoader.load_validated (fs : FS) (self : ConfigLoader)
    (config_name : String) : Except PyErr PyVal :=
  match self.load_raw fs config_name with
  | .error e => .error e
  | .ok config => validate_config APP_SCHEMA config

/-- The full `lru_cache(maxsize=5)`-wrapped `ConfigLoader.load`.  The cache
is class-level state, so it is threaded explicitly: on a hit the stored
value is returned and its entry moved to most-recently-used without calling
the wrapped function; on a miss the wrapped function runs — a raised
exception leaves the cache untouched, a returned value is inserted and the
least-recently-used entry beyond `maxsize` entries is dropped. -/
def ConfigLoader.load (fs : FS) (cache : Cache) (self : ConfigLoader)
    (config_name : String) : Except PyErr PyVal × Cache :=
  let key : CacheKey := (self.id, config_name)
  match cacheFind cache key with
  | some v => (.ok v, (key, v) :: cacheRemove cache key)
  | Option.none =>
      match self.load_validated fs config_name with
      | .error e => (.error e, cache)
      | .ok v => (.ok v, ((key, v) :: cache).take LOAD_MAXSIZE)

/-- Sequentially perform `self.load nᵢ` for each name in the list,
threading the class-level cache, and return the final cache. -/
def loadSeq (fs : FS) (self : ConfigLoader) (cache : Cache) :
    List String → Cache
  | [] => cache
  | n :: rest => loadSeq fs self (ConfigLoader.load fs cache self n).2 rest

/-- Boolean statement that every schema entry is satisfied by the dict
entries `kvs`: the key is present and its value passes `isinstance`. -/
def schemaOk (schema : List (String × PyType))
    (kvs : List (String × PyVal)) : Bool :=
  schema.all fun p =>
    match dictFind kvs p.1 with
    | some v => pyIsinstance v p.2
    | Option.none => false

/-- A well-formed configuration value for the fixed schema, used by the
cache-sharing scenario. -/
def sampleConfig (host : String) : PyVal :=
  .dict [("host", .str host), ("port", .int 8080), ("debug", .bool true)]

/-- Files for two loaders with distinct directories. -/
def fsTwoLoaders : FS :=
  [("d0/a.json", .ok (sampleConfig "a")), ("d0/b.json", .ok (sampleConfig "b")),
    ("d0/c.json", .ok (sampleConfig "c")), ("d0/d.json", .ok (sampleConfig "d")),
    ("d0/e.json", .ok (sampleConfig "e")), ("d1/f.json", .ok (sampleConfig "f"))]

/-- The class-level cache after the first loader (`id 0`, directory `d0`)
loads five distinct names. -/
def cacheAfterA : Cache :=
  loadSeq fsTwoLoaders (ConfigLoader.mk 0 "d0") [] ["a", "b", "c", "d", "e"]

/-- That cache after a second, different loader (`id 1`, directory `d1`)
loads one more name. -/
def cacheAfterB : Cache :=
  (ConfigLoader.load fsTwoLoaders cacheAfterA (ConfigLoader.mk 1 "d1") "f").2

/-- Six valid configuration files in one directory. -/
def fsSix : FS :=
  [("d/a.json", .ok (sampleConfig "a")), ("d/b.json", .ok (sampleConfig "b")),
    ("d/c.json", .ok (sampleConfig "c")), ("d/d.json", .ok (sampleConfig "d")),
    ("d/e.json", .ok (sampleConfig "e")), ("d/f.json", .ok (sampleConfig "f"))]

/-! ### Theorems about the validator -/

/-- C1: the claim says a boolean bound to an integer-typed schema key makes
`validate` fail with a type-mismatch `ConfigError`; the code instead uses
`isinstance`, under which `bool` is a subclass of `int`, so the boolean
`port` is accepted and validation succeeds, returning the configuration. -/
theorem C1_bool_accepted_where_int_expected :
    validate_config APP_SCHEMA
        (PyVal.dict
          [("host", .str "localhost"), ("port", .bool true), ("debug", .bool false)])
      = .ok (PyVal.dict
          [("host", .str "localhost"), ("port", .bool true), ("debug", .bool false)]) :=
  rfl

/-- C8: a configuration dict satisfying every schema entry (key present,
value passing the `isinstance` test — in particular any value of the exact
expected type) validates successfully and is returned unchanged: no key is
added, removed, or transformed, and keys absent from the schema pass
through intact because the loop only inspects schema keys. -/
theorem C8_validate_pass_through (schema : List (String × PyType))
    (kvs : List (String × PyVal)) (h : schemaOk schema kvs = true) :
    validate_config schema (.dict kvs) = .ok (.dict kvs) := by
  induction schema with
  | nil => rfl
  | cons p rest ih =>
      obtain ⟨k, t⟩ := p
      simp only [schemaOk, List.all_cons, Bool.and_eq_true] at h
      obtain ⟨h1, h2⟩ := h
      cases hd : dictFind kvs k with
      | none => simp [hd] at h1
      | some v =>
          simp only [hd] at h1
          have := ih h2
          simpa [validate_config, validateLoop, pyContains, pyGetItem, hd, h1]
            using this

/-- C8 witness: the end-to-end example configuration plus an extra key
passes validation and is returned with the extra key intact. -/
theorem C8_validate_pass_through_witness :
    schemaOk APP_SCHEMA
        [("host", .str "localhost"), ("port", .int 8080), ("debug", .bool true),
          ("extra", .str "kept")] = true
    ∧ validate_config APP_SCHEMA
        (.dict [("host", .str "localhost"), ("port", .int 8080),
          ("debug", .bool true), ("extra", .str "kept")])
      = .ok (.dict [("host", .str "localhost"), ("port", .int 8080),
          ("debug", .bool true), ("extra", .str "kept")]) :=
  ⟨by rfl, C8_validate_pass_through APP_SCHEMA
    [("host", .str "localhost"), ("port", .int 8080), ("debug", .bool true),
      ("extra", .str "kept")] (by rfl)⟩

/-- C7 counterexample: the configuration `{"a": "x"}` is missing the
required key `"b"` of the schema `{"a": int, "b": str}`, yet `validate`
raises the type-mismatch error for the earlier key `"a"`, not the
missing-key error for `"b"`: a type violation on an earlier key preempts a
missing later key, refuting the claim that every configuration missing a
required key fails with `MissingKeyError`. -/
theorem C7_counterexample :
    validate_config [("a", PyType.int), ("b", PyType.str)]
        (PyVal.dict [("a", PyVal.str "x")])
      = .error (.typeMismatch "a" PyType.int "<class 'str'>")
    ∧ dictFind [("a", PyVal.str "x")] "b" = Option.none :=
  ⟨rfl, rfl⟩

/-- C7 (amended): if every schema key before `key` is present with an
`isinstance`-passing value and `key` is absent from the configuration
dict, `validate` fails with the missing-key `ConfigError` naming `key` —
the first violating key in schema enumeration order.  The expected type
`t` of the missing key is arbitrary: absence is checked before the type of
the value, so an absent key never yields a type-mismatch error. -/
theorem C7_first_missing_key_reported (pre post : List (String × PyType))
    (key : String) (t : PyType) (kvs : List (String × PyVal))
    (hpre : schemaOk pre kvs = true)
    (habs : dictFind kvs key = Option.none) :
    validate_config (pre ++ (key, t) :: post) (.dict kvs)
      = .error (.missingKey key) := by
  induction pre with
  | nil => simp [validate_config, validateLoop, pyContains, habs]
  | cons p rest ih =>
      obtain ⟨k, et⟩ := p
      simp only [schemaOk, List.all_cons, Bool.and_eq_true] at hpre
      obtain ⟨h1, h2⟩ := hpre
      cases hd : dictFind kvs k with
      | none => simp [hd] at h1
      | some v =>
          simp only [hd] at h1
          have := ih h2
          simpa [validate_config, validateLoop, pyContains, pyGetItem, hd, h1]
            using this

/-- C7 witness: with the fixed schema and a dict supplying a valid
`"host"` but no `"port"`, validation reports the missing `"port"`. -/
theorem C7_first_missing_key_reported_witness :
    schemaOk [("host", PyType.str)] [("host", PyVal.str "localhost")] = true
    ∧ dictFind [("host", PyVal.str "localhost")] "port" = Option.none
    ∧ validate_config
        [("host", PyType.str), ("port", PyType.int), ("debug", PyType.bool)]
        (.dict [("host", PyVal.str "localhost")])
      = .error (.missingKey "port") :=
  ⟨by rfl, rfl,
    C7_first_missing_key_reported [("host", PyType.str)]
      [("debug", PyType.bool)] "port" PyType.int
      [("host", PyVal.str "localhost")] (by rfl) rfl⟩

/-! ### Theorems about the load pipeline -/

/-- C9: when a name is not cached and its resolved file does not exist,
`load` fails with the file-not-found `ConfigError` carrying exactly the
path obtained by `os.path.join(config_dir, name + ".json")`, and that
error belongs to the `ConfigError` family; the cache is untouched. -/
theorem C9_missing_file (fs : FS) (cache : Cache) (self : ConfigLoader)
    (name : String)
    (hmiss : cacheFind cache (self.id, name) = Option.none)
    (hnofile :
      fsFind fs (os_path_join self.config_dir (name ++ ".json")) = Option.none) :
    ConfigLoader.load fs cache self name
      = (.error (.fileNotFound (os_path_join self.config_dir (name ++ ".json"))),
          cache)
    ∧ PyErr.isConfigError
        (.fileNotFound (os_path_join self.config_dir (name ++ ".json"))) = true := by
  refine ⟨?_, rfl⟩
  simp [ConfigLoader.load, hmiss, ConfigLoader.load_validated,
    ConfigLoader.load_raw, hnofile]

/-- C9 witness: `load "nonexistent"` on an empty directory fails with the
file-not-found error for `configs/nonexistent.json`. -/
theorem C9_missing_file_witness :
    cacheFind [] ((ConfigLoader.mk 0 "configs").id, "nonexistent") = Option.none
    ∧ fsFind []
        (os_path_join (ConfigLoader.mk 0 "configs").config_dir
          ("nonexistent" ++ ".json")) = Option.none
    ∧ ConfigLoader.load [] [] (ConfigLoader.mk 0 "configs") "nonexistent"
      = (.error (.fileNotFound
          (os_path_join (ConfigLoader.mk 0 "configs").config_dir
            ("nonexistent" ++ ".json"))), []) :=
  ⟨rfl, rfl,
    (C9_missing_file [] [] (ConfigLoader.mk 0 "configs") "nonexistent" rfl rfl).1⟩

/-- C2 counterexample: for a file whose contents do not parse as JSON,
`load` propagates the `json.JSONDecodeError` raised by `json.load`
unwrapped; that error is not an instance of the `ConfigError` class, so a
caller catching the broad `ConfigError` family does not catch it, refuting
the claim that the parse failure is a `ConfigError`-family `ParseError`. -/
theorem C2_counterexample :
    (ConfigLoader.load
        [("configs/bad.json",
          .error "Expecting property name enclosed in double quotes: line 1 column 2 (char 1)")]
        [] (ConfigLoader.mk 0 "configs") "bad").1
      = .error (.jsonDecode
          "Expecting property name enclosed in double quotes: line 1 column 2 (char 1)")
    ∧ PyErr.isConfigError (.jsonDecode
        "Expecting property name enclosed in double quotes: line 1 column 2 (char 1)")
      = false :=
  ⟨rfl, rfl⟩

/-- C2 (amended): when a name is not cached and its file exists but its
contents are not valid JSON, `load` fails with the underlying JSON decode
error propagated unwrapped; this error is not a member of the
`ConfigError` family, so a caller catching `ConfigError` broadly does not
catch it.  The cache is untouched. -/
theorem C2_parse_failure_escapes_family (fs : FS) (cache : Cache)
    (self : ConfigLoader) (name msg : String)
    (hmiss : cacheFind cache (self.id, name) = Option.none)
    (hfile :
      fsFind fs (os_path_join self.config_dir (name ++ ".json"))
        = some (.error msg)) :
    ConfigLoader.load fs cache self name = (.error (.jsonDecode msg), cache)
    ∧ PyErr.isConfigError (.jsonDecode msg) = false := by
  refine ⟨?_, rfl⟩
  simp [ConfigLoader.load, hmiss, ConfigLoader.load_validated,
    ConfigLoader.load_raw, hfile]

/-- C2 amended-claim witness at the concrete malformed file. -/
theorem C2_parse_failure_escapes_family_witness :
    cacheFind [] ((ConfigLoader.mk 0 "configs").id, "bad") = Option.none
    ∧ fsFind [("configs/bad.json", .error "Expecting value: line 1 column 1 (char 0)")]
        (os_path_join (ConfigLoader.mk 0 "configs").config_dir ("bad" ++ ".json"))
      = some (.error "Expecting value: line 1 column 1 (char 0)")
    ∧ ConfigLoader.load
        [("configs/bad.json", .error "Expecting value: line 1 column 1 (char 0)")]
        [] (ConfigLoader.mk 0 "configs") "bad"
      = (.error (.jsonDecode "Expecting value: line 1 column 1 (char 0)"), []) :=
  ⟨rfl, rfl,
    (C2_parse_failure_escapes_family
      [("configs/bad.json", .error "Expecting value: line 1 column 1 (char 0)")]
      [] (ConfigLoader.mk 0 "configs") "bad"
      "Expecting value: line 1 column 1 (char 0)" rfl rfl).1⟩

/-- C6: `load` is atomic with respect to the cache: when the wrapped call
fails for an uncached name — missing file, parse failure, or validation
failure, i.e. any error of the undecorated pipeline — the exception
propagates and the cache is returned unchanged, so nothing is inserted and
any immediately following `load` of that name starts from the same cache
and takes the full miss path again. -/
theorem C6_failure_caches_nothing (fs : FS) (cache : Cache)
    (self : ConfigLoader) (name : String) (e : PyErr)
    (hmiss : cacheFind cache (self.id, name) = Option.none)
    (hfail : self.load_validated fs name = .error e) :
    ConfigLoader.load fs cache self name = (.error e, cache)
    ∧ ∀ fs2, ConfigLoader.load fs2 (ConfigLoader.load fs cache self name).2 self name
        = ConfigLoader.load fs2 cache self name := by
  have h1 : ConfigLoader.load fs cache self name = (.error e, cache) := by
    simp [ConfigLoader.load, hmiss, hfail]
  exact ⟨h1, fun fs2 => by rw [h1]⟩

/-- C6 witness: a missing-key validation failure leaves the cache empty and
a rerun behaves identically. -/
theorem C6_failure_caches_nothing_witness :
    cacheFind [] ((ConfigLoader.mk 0 "d").id, "x") = Option.none
    ∧ (ConfigLoader.mk 0 "d").load_validated
        [("d/x.json", .ok (.dict [("host", .str "h")]))] "x"
      = .error (.missingKey "port")
    ∧ ConfigLoader.load [("d/x.json", .ok (.dict [("host", .str "h")]))] []
        (ConfigLoader.mk 0 "d") "x"
      = (.error (.missingKey "port"), []) :=
  ⟨rfl, rfl,
    (C6_failure_caches_nothing [("d/x.json", .ok (.dict [("host", .str "h")]))]
      [] (ConfigLoader.mk 0 "d") "x" (.missingKey "port") rfl rfl).1⟩

/-- C10: a file that exists and parses as the JSON number `5` makes `load`
fail — the validator evaluates `"host" in 5`, and Python's membership test
on an `int` raises `TypeError`, which is not an instance of `ConfigError`:
the failure escapes the documented error taxonomy. -/
theorem C10_nondict_escapes_taxonomy :
    (ConfigLoader.load [("configs/scalar.json", .ok (.int 5))] []
        (ConfigLoader.mk 0 "configs") "scalar").1
      = .error (.typeError "argument of type 'int' is not iterable")
    ∧ PyErr.isConfigError (.typeError "argument of type 'int' is not iterable")
      = false :=
  ⟨rfl, rfl⟩

/-- Helper: a freshly inserted entry survives the capacity truncation and
is found first. -/
lemma cacheFind_insert (key : CacheKey) (v : PyVal) (c : Cache) :
    cacheFind (((key, v) :: c).take LOAD_MAXSIZE) key = some v := by
  show cacheFind (((key, v) :: c).take (4 + 1)) key = some v
  rw [List.take_succ_cons]
  simp [cacheFind]

/-- Helper: after any successful `load`, the loaded value is the cached
entry for its key. -/
lemma load_ok_cached (fs : FS) (cache : Cache) (self : ConfigLoader)
    (name : String) (v : PyVal)
    (h : (ConfigLoader.load fs cache self name).1 = .ok v) :
    cacheFind (ConfigLoader.load fs cache self name).2 (self.id, name) = some v := by
  cases hc : cacheFind cache (self.id, name) with
  | some w =>
      simp [ConfigLoader.load, hc] at h ⊢
      simp [cacheFind, h]
  | none =>
      cases hv : self.load_validated fs name with
      | error e => simp [ConfigLoader.load, hc, hv] at h
      | ok w =>
          simp [ConfigLoader.load, hc, hv] at h ⊢
          rw [← h]
          exact cacheFind_insert ..

/-- C4: the cache-hit contract.  First, whenever a name is present in the
cache with value `v`, `load` returns exactly that cached object, for every
file system — the result does not depend on `fs`, so no file is touched.
Second, after any successful `load` (in particular a first load of a
name), the value is cached under the name, and a repeated `load` against
an arbitrarily modified file system `fs2` still returns the original
(stale) value while the entry remains cached. -/
theorem C4_cache_hit_identity (cache : Cache) (self : ConfigLoader)
    (name : String) (v : PyVal) (fs fs2 : FS) :
    (cacheFind cache (self.id, name) = some v →
        (ConfigLoader.load fs cache self name).1 = .ok v)
    ∧ ((ConfigLoader.load fs cache self name).1 = .ok v →
        cacheFind (ConfigLoader.load fs cache self name).2 (self.id, name) = some v
        ∧ (ConfigLoader.load fs2 (ConfigLoader.load fs cache self name).2 self name).1
          = .ok v) := by
  constructor
  · intro h
    simp [ConfigLoader.load, h]
  · intro h
    have hstore := load_ok_cached fs cache self name v h
    refine ⟨hstore, ?_⟩
    generalize hC : (ConfigLoader.load fs cache self name).2 = c2 at hstore ⊢
    simp [ConfigLoader.load, hstore]

/-- C4 witness: loading `"x"` once from a file system, then deleting the
backing file, still returns the originally cached configuration. -/
theorem C4_cache_hit_identity_witness :
    (ConfigLoader.load
        [("d/x.json", .ok (.dict [("host", .str "h"), ("port", .int 1), ("debug", .bool true)]))]
        [] (ConfigLoader.mk 0 "d") "x").1
      = .ok (.dict [("host", .str "h"), ("port", .int 1), ("debug", .bool true)])
    ∧ (ConfigLoader.load []
        (ConfigLoader.load
          [("d/x.json", .ok (.dict [("host", .str "h"), ("port", .int 1), ("debug", .bool true)]))]
          [] (ConfigLoader.mk 0 "d") "x").2
        (ConfigLoader.mk 0 "d") "x").1
      = .ok (.dict [("host", .str "h"), ("port", .int 1), ("debug", .bool true)]) :=
  ⟨rfl,
    ((C4_cache_hit_identity [] (ConfigLoader.mk 0 "d") "x"
        (.dict [("host", .str "h"), ("port", .int 1), ("debug", .bool true)])
        [("d/x.json", .ok (.dict [("host", .str "h"), ("port", .int 1), ("debug", .bool true)]))]
        []).2 rfl).2⟩

/-- C3 counterexample: after loader `0` fills the five cache slots, a
single `load` through the distinct loader `1` evicts loader `0`'s
least-recently-used entry `("a")` — the `lru_cache` decorator creates one
class-level cache shared by all instances, refuting the claim that each
`ConfigLoader` carries its own capacity-5 cache that other instances'
loads can never evict from. -/
theorem C3_counterexample :
    cacheFind cacheAfterA (0, "a") = some (sampleConfig "a")
    ∧ cacheFind cacheAfterB (0, "a") = Option.none :=
  ⟨rfl, rfl⟩

/-- C3 (amended): the source keeps a single LRU cache of capacity 5 shared
by every `ConfigLoader` instance, keyed by `(instance, name)`.  When a
load through `self` misses on a full cache whose least-recently-used entry
belongs to an arbitrary instance `other`, the successful load evicts that
entry: loads through one instance can evict entries cached by a different
instance. -/
theorem C3_shared_cache_cross_eviction (fs : FS) (self other : ConfigLoader)
    (name oname : String) (v w : PyVal) (c4 : Cache)
    (hlen : c4.length = 4)
    (hmiss :
      cacheFind (c4 ++ [((other.id, oname), w)]) (self.id, name) = Option.none)
    (hno : cacheFind c4 (other.id, oname) = Option.none)
    (hne : (other.id, oname) ≠ ((self.id, name) : CacheKey))
    (hok : self.load_validated fs name = .ok v) :
    (ConfigLoader.load fs (c4 ++ [((other.id, oname), w)]) self name).2
      = ((self.id, name), v) :: c4
    ∧ cacheFind ((ConfigLoader.load fs (c4 ++ [((other.id, oname), w)]) self name).2)
        (other.id, oname) = Option.none := by
  have h2 : (ConfigLoader.load fs (c4 ++ [((other.id, oname), w)]) self name).2
      = ((self.id, name), v) :: c4 := by
    simp only [ConfigLoader.load, hmiss, hok]
    rw [← List.cons_append]
    have hl : LOAD_MAXSIZE = (((self.id, name), v) :: c4).length := by
      simp [LOAD_MAXSIZE, hlen]
    rw [hl, List.take_left]
  refine ⟨h2, ?_⟩
  rw [h2]
  simp [cacheFind, hne, hno]

/-- C3 amended-claim witness: loader `1` evicts the entry loader `0`
cached under the name `"a"`. -/
theorem C3_shared_cache_cross_eviction_witness :
    (ConfigLoader.load [("d1/f.json", .ok (sampleConfig "f"))]
        ([((0, "e"), sampleConfig "e"), ((0, "d"), sampleConfig "d"),
            ((0, "c"), sampleConfig "c"), ((0, "b"), sampleConfig "b")]
          ++ [((0, "a"), sampleConfig "a")])
        (ConfigLoader.mk 1 "d1") "f").2
      = ((1, "f"), sampleConfig "f")
          :: [((0, "e"), sampleConfig "e"), ((0, "d"), sampleConfig "d"),
              ((0, "c"), sampleConfig "c"), ((0, "b"), sampleConfig "b")]
    ∧ cacheFind
        ((ConfigLoader.load [("d1/f.json", .ok (sampleConfig "f"))]
          ([((0, "e"), sampleConfig "e"), ((0, "d"), sampleConfig "d"),
              ((0, "c"), sampleConfig "c"), ((0, "b"), sampleConfig "b")]
            ++ [((0, "a"), sampleConfig "a")])
          (ConfigLoader.mk 1 "d1") "f").2)
        (0, "a") = Option.none :=
  C3_shared_cache_cross_eviction [("d1/f.json", .ok (sampleConfig "f"))]
    (ConfigLoader.mk 1 "d1") (ConfigLoader.mk 0 "d0") "f" "a"
    (sampleConfig "f") (sampleConfig "a")
    [((0, "e"), sampleConfig "e"), ((0, "d"), sampleConfig "d"),
      ((0, "c"), sampleConfig "c"), ((0, "b"), sampleConfig "b")]
    rfl rfl rfl (by decide) rfl

/-- C5: capacity-5 LRU eviction.  Loading six distinct names, each with a
valid configuration file, on one loader starting from an empty cache
leaves the cache at its capacity of five entries, with the
least-recently-used name `n1` evicted; a subsequent `load` of `n1` misses
and re-runs the whole uncached pipeline against the current file system
(re-reading the file from disk). -/
theorem C5_lru_eviction_after_six_loads (fs : FS) (self : ConfigLoader)
    (n1 n2 n3 n4 n5 n6 : String) (v1 v2 v3 v4 v5 v6 : PyVal)
    (hnd : ([n1, n2, n3, n4, n5, n6] : List String).Nodup)
    (h1 : self.load_validated fs n1 = .ok v1)
    (h2 : self.load_validated fs n2 = .ok v2)
    (h3 : self.load_validated fs n3 = .ok v3)
    (h4 : self.load_validated fs n4 = .ok v4)
    (h5 : self.load_validated fs n5 = .ok v5)
    (h6 : self.load_validated fs n6 = .ok v6) :
    (loadSeq fs self [] [n1, n2, n3, n4, n5, n6]).length = LOAD_MAXSIZE
    ∧ cacheFind (loadSeq fs self [] [n1, n2, n3, n4, n5, n6]) (self.id, n1)
        = Option.none
    ∧ ∀ fs2,
        (ConfigLoader.load fs2 (loadSeq fs self [] [n1, n2, n3, n4, n5, n6])
            self n1).1
          = self.load_validated fs2 n1 := by
  simp only [List.nodup_cons, List.mem_cons, List.mem_singleton, not_or,
    List.not_mem_nil, not_false_iff, List.nodup_nil, and_true] at hnd
  obtain ⟨⟨h12, h13, h14, h15, h16⟩, ⟨h23, h24, h25, h26⟩, ⟨h34, h35, h36⟩,
    ⟨h45, h46⟩, h56⟩ := hnd
  have s1 : ConfigLoader.load fs [] self n1 = (.ok v1, [((self.id, n1), v1)]) := by
    simp [ConfigLoader.load, cacheFind, h1, LOAD_MAXSIZE]
  have s2 : ConfigLoader.load fs [((self.id, n1), v1)] self n2
      = (.ok v2, [((self.id, n2), v2), ((self.id, n1), v1)]) := by
    simp [ConfigLoader.load, cacheFind, h2, LOAD_MAXSIZE, Ne.symm h12]
  have s3 : ConfigLoader.load fs [((self.id, n2), v2), ((self.id, n1), v1)] self n3
      = (.ok v3, [((self.id, n3), v3), ((self.id, n2), v2), ((self.id, n1), v1)]) := by
    simp [ConfigLoader.load, cacheFind, h3, LOAD_MAXSIZE, Ne.symm h13, Ne.symm h23]
  have s4 : ConfigLoader.load fs
        [((self.id, n3), v3), ((self.id, n2), v2), ((self.id, n1), v1)] self n4
      = (.ok v4, [((self.id, n4), v4), ((self.id, n3), v3), ((self.id, n2), v2),
          ((self.id, n1), v1)]) := by
    simp [ConfigLoader.load, cacheFind, h4, LOAD_MAXSIZE, Ne.symm h14, Ne.symm h24,
      Ne.symm h34]
  have s5 : ConfigLoader.load fs
        [((self.id, n4), v4), ((self.id, n3), v3), ((self.id, n2), v2),
          ((self.id, n1), v1)] self n5
      = (.ok v5, [((self.id, n5), v5), ((self.id, n4), v4), ((self.id, n3), v3),
          ((self.id, n2), v2), ((self.id, n1), v1)]) := by
    simp [ConfigLoader.load, cacheFind, h5, LOAD_MAXSIZE, Ne.symm h15, Ne.symm h25,
      Ne.symm h35, Ne.symm h45]
  have s6 : ConfigLoader.load fs
        [((self.id, n5), v5), ((self.id, n4), v4), ((self.id, n3), v3),
          ((self.id, n2), v2), ((self.id, n1), v1)] self n6
      = (.ok v6, [((self.id, n6), v6), ((self.id, n5), v5), ((self.id, n4), v4),
          ((self.id, n3), v3), ((self.id, n2), v2)]) := by
    have htake : List.take LOAD_MAXSIZE
        [((self.id, n6), v6), ((self.id, n5), v5), ((self.id, n4), v4),
          ((self.id, n3), v3), ((self.id, n2), v2), ((self.id, n1), v1)]
        = [((self.id, n6), v6), ((self.id, n5), v5), ((self.id, n4), v4),
            ((self.id, n3), v3), ((self.id, n2), v2)] := by
      rw [show ([((self.id, n6), v6), ((self.id, n5), v5), ((self.id, n4), v4),
          ((self.id, n3), v3), ((self.id, n2), v2), ((self.id, n1), v1)] : Cache)
        = [((self.id, n6), v6), ((self.id, n5), v5), ((self.id, n4), v4),
            ((self.id, n3), v3), ((self.id, n2), v2)] ++ [((self.id, n1), v1)]
        from rfl]
      rw [show LOAD_MAXSIZE = ([((self.id, n6), v6), ((self.id, n5), v5),
          ((self.id, n4), v4), ((self.id, n3), v3), ((self.id, n2), v2)] : Cache).length
        from rfl]
      exact List.take_left ..
    simp [ConfigLoader.load, cacheFind, h6, Ne.symm h16, Ne.symm h26, Ne.symm h36,
      Ne.symm h46, Ne.symm h56, htake]
  have hC : loadSeq fs self [] [n1, n2, n3, n4, n5, n6]
      = [((self.id, n6), v6), ((self.id, n5), v5), ((self.id, n4), v4),
          ((self.id, n3), v3), ((self.id, n2), v2)] := by
    simp [loadSeq, s1, s2, s3, s4, s5, s6]
  have hfind : cacheFind (loadSeq fs self [] [n1, n2, n3, n4, n5, n6])
      (self.id, n1) = Option.none := by
    rw [hC]
    simp [cacheFind, h12, h13, h14, h15, h16]
  refine ⟨by rw [hC]; rfl, hfind, fun fs2 => ?_⟩
  cases hl : self.load_validated fs2 n1 with
  | error e => simp [ConfigLoader.load, hfind, hl]
  | ok w => simp [ConfigLoader.load, hfind, hl]

/-- C5 witness: six concrete distinct names on one loader. -/
theorem C5_lru_eviction_after_six_loads_witness :
    (loadSeq fsSix (ConfigLoader.mk 0 "d") [] ["a", "b", "c", "d", "e", "f"]).length
      = LOAD_MAXSIZE
    ∧ cacheFind (loadSeq fsSix (ConfigLoader.mk 0 "d") [] ["a", "b", "c", "d", "e", "f"])
        ((ConfigLoader.mk 0 "d").id, "a") = Option.none
    ∧ ∀ fs2,
        (ConfigLoader.load fs2
            (loadSeq fsSix (ConfigLoader.mk 0 "d") [] ["a", "b", "c", "d", "e", "f"])
            (ConfigLoader.mk 0 "d") "a").1
          = (ConfigLoader.mk 0 "d").load_validated fs2 "a" :=
  C5_lru_eviction_after_six_loads fsSix (ConfigLoader.mk 0 "d")
    "a" "b" "c" "d" "e" "f"
    (sampleConfig "a") (sampleConfig "b") (sampleConfig "c") (sampleConfig "d")
    (sampleConfig "e") (sampleConfig "f")
    (by decide) rfl rfl rfl rfl rfl rfl

end ConfigManager
